import Mathlib

set_option linter.unusedSectionVars false

/-!
# Verification of the sqlite-ndvss similarity kernel library

Shallow embedding of the scalar ("basic") similarity kernels of
`src/similarity_functions_basic.h`, of the CPU-capability detection and
dispatch-table binding of `sqlite3_ndvss_init` in `src/sqlite-ndvss.c`,
and of the SQL entry-point glue functions of `src/sqlite-ndvss.c`.

Input arrays are modelled as index functions `ℕ → α`; the element values
are carried exactly (at `α = ℚ`), which is faithful for every claim
settled here: the claims either hold for an arbitrary carrier with the
same operation sequence (so in particular bitwise for IEEE-754 floats),
or evaluate the kernels at small integer inputs on which every IEEE-754
operation involved is exact.
-/

namespace Ndvss

section ScalarKernels

variable {α : Type} [Add α] [Mul α] [Sub α] [Zero α]

/-- Remainder (tail) loop of `cosine_similarity_f_basic` /
`cosine_similarity_d_basic` (src/similarity_functions_basic.h lines 55-61
and 116-122): `for( ; i < vector_size; ++i )` accumulating
`similarity += A*B; dividerA += A*A; dividerB += B*B`.
Returns `(similarity, dividerA, dividerB)`. -/
def cosineTail (searched_array column_array : ℕ → α) (vector_size : ℕ)
    (i : ℕ) (similarity dividerA dividerB : α) : α × α × α :=
  if i < vector_size then
    cosineTail searched_array column_array vector_size (i + 1)
      (similarity + searched_array i * column_array i)
      (dividerA + searched_array i * searched_array i)
      (dividerB + column_array i * column_array i)
  else (similarity, dividerA, dividerB)
termination_by vector_size - i
decreasing_by omega

/-- Manually 4-way unrolled main loop of `cosine_similarity_f_basic` /
`cosine_similarity_d_basic` (src/similarity_functions_basic.h lines 30-52
and 91-113): `for( ; i + 3 < vector_size; i += 4 )`, each accumulator
receiving the four elements in index order, followed by the tail loop. -/
def cosineMain (searched_array column_array : ℕ → α) (vector_size : ℕ)
    (i : ℕ) (similarity dividerA dividerB : α) : α × α × α :=
  if i + 3 < vector_size then
    cosineMain searched_array column_array vector_size (i + 4)
      (similarity + searched_array i * column_array i
        + searched_array (i + 1) * column_array (i + 1)
        + searched_array (i + 2) * column_array (i + 2)
        + searched_array (i + 3) * column_array (i + 3))
      (dividerA + searched_array i * searched_array i
        + searched_array (i + 1) * searched_array (i + 1)
        + searched_array (i + 2) * searched_array (i + 2)
        + searched_array (i + 3) * searched_array (i + 3))
      (dividerB + column_array i * column_array i
        + column_array (i + 1) * column_array (i + 1)
        + column_array (i + 2) * column_array (i + 2)
        + column_array (i + 3) * column_array (i + 3))
  else cosineTail searched_array column_array vector_size i similarity dividerA dividerB
termination_by vector_size - i
decreasing_by omega

/-- `cosine_similarity_{f,d}_basic` (src/similarity_functions_basic.h
lines 20-67 and 81-128): both loops starting from `i = 0` with all three
accumulators `0`. The C functions return `similarity` and write
`dividerA`, `dividerB` through out-pointers; here the triple
`(similarity, dividerA, dividerB)` is returned. -/
def cosine_similarity_basic (searched_array column_array : ℕ → α)
    (vector_size : ℕ) : α × α × α :=
  cosineMain searched_array column_array vector_size 0 0 0 0

/-- Tail loop of `euclidean_distance_similarity_{f,d}_basic`
(src/similarity_functions_basic.h lines 160-163 and 197-200):
`AB = A[i] - B[i]; similarity += AB * AB`. -/
def euclideanTail (searched_array column_array : ℕ → α) (vector_size : ℕ)
    (i : ℕ) (similarity : α) : α :=
  if i < vector_size then
    euclideanTail searched_array column_array vector_size (i + 1)
      (similarity + (searched_array i - column_array i) * (searched_array i - column_array i))
  else similarity
termination_by vector_size - i
decreasing_by omega

/-- 4-way unrolled main loop of `euclidean_distance_similarity_{f,d}_basic`
(src/similarity_functions_basic.h lines 148-157 and 185-194), followed by
the tail loop. -/
def euclideanMain (searched_array column_array : ℕ → α) (vector_size : ℕ)
    (i : ℕ) (similarity : α) : α :=
  if i + 3 < vector_size then
    euclideanMain searched_array column_array vector_size (i + 4)
      (similarity
        + (searched_array i - column_array i) * (searched_array i - column_array i)
        + (searched_array (i + 1) - column_array (i + 1))
          * (searched_array (i + 1) - column_array (i + 1))
        + (searched_array (i + 2) - column_array (i + 2))
          * (searched_array (i + 2) - column_array (i + 2))
        + (searched_array (i + 3) - column_array (i + 3))
          * (searched_array (i + 3) - column_array (i + 3)))
  else euclideanTail searched_array column_array vector_size i similarity
termination_by vector_size - i
decreasing_by omega

/-- `euclidean_distance_similarity_{f,d}_basic`
(src/similarity_functions_basic.h lines 141-166 and 178-203): the squared
Euclidean distance accumulated from `i = 0`, accumulator starting at `0`. -/
def euclidean_distance_similarity_basic (searched_array column_array : ℕ → α)
    (vector_size : ℕ) : α :=
  euclideanMain searched_array column_array vector_size 0 0

/-- Tail loop of `dot_product_similarity_{f,d}_basic`
(src/similarity_functions_basic.h lines 228-230 and 257-259):
`similarity += A[i] * B[i]`. -/
def dotTail (searched_array column_array : ℕ → α) (vector_size : ℕ)
    (i : ℕ) (similarity : α) : α :=
  if i < vector_size then
    dotTail searched_array column_array vector_size (i + 1)
      (similarity + searched_array i * column_array i)
  else similarity
termination_by vector_size - i
decreasing_by omega

/-- 4-way unrolled main loop of `dot_product_similarity_{f,d}_basic`
(src/similarity_functions_basic.h lines 221-226 and 250-255), followed by
the tail loop. -/
def dotMain (searched_array column_array : ℕ → α) (vector_size : ℕ)
    (i : ℕ) (similarity : α) : α :=
  if i + 3 < vector_size then
    dotMain searched_array column_array vector_size (i + 4)
      (similarity + searched_array i * column_array i
        + searched_array (i + 1) * column_array (i + 1)
        + searched_array (i + 2) * column_array (i + 2)
        + searched_array (i + 3) * column_array (i + 3))
  else dotTail searched_array column_array vector_size i similarity
termination_by vector_size - i
decreasing_by omega

/-- `dot_product_similarity_{f,d}_basic` (src/similarity_functions_basic.h
lines 215-233 and 244-262): the dot product accumulated from `i = 0`,
accumulator starting at `0`. For the `_d` variant this is the value of the
`double` accumulator `similarity` at the `return` statement; the C
function's declared return type narrows it to `float` (see
`Float32Representable` below). -/
def dot_product_similarity_basic (searched_array column_array : ℕ → α)
    (vector_size : ℕ) : α :=
  dotMain searched_array column_array vector_size 0 0

end ScalarKernels

/-! ## Simple (non-unrolled) reference loops

The spec's semantic baseline: one element per iteration, in index order
("a simple non-unrolled loop that accumulates one element per iteration in
index order"). These are compared with the 4-way unrolled kernels above. -/

section SimpleLoops

variable {α : Type} [Add α] [Mul α] [Sub α] [Zero α]

/-- One-element-per-iteration cosine accumulation from index `i`. -/
def simpleCosineLoop (A B : ℕ → α) (N i : ℕ)
    (similarity dividerA dividerB : α) : α × α × α :=
  if i < N then
    simpleCosineLoop A B N (i + 1)
      (similarity + A i * B i) (dividerA + A i * A i) (dividerB + B i * B i)
  else (similarity, dividerA, dividerB)
termination_by N - i
decreasing_by omega

/-- Non-unrolled reference for the cosine kernel. -/
def simpleCosine (A B : ℕ → α) (N : ℕ) : α × α × α :=
  simpleCosineLoop A B N 0 0 0 0

/-- One-element-per-iteration squared-difference accumulation from index `i`. -/
def simpleEuclideanLoop (A B : ℕ → α) (N i : ℕ) (similarity : α) : α :=
  if i < N then
    simpleEuclideanLoop A B N (i + 1) (similarity + (A i - B i) * (A i - B i))
  else similarity
termination_by N - i
decreasing_by omega

/-- Non-unrolled reference for the squared-Euclidean kernel. -/
def simpleEuclidean (A B : ℕ → α) (N : ℕ) : α :=
  simpleEuclideanLoop A B N 0 0

/-- One-element-per-iteration dot-product accumulation from index `i`. -/
def simpleDotLoop (A B : ℕ → α) (N i : ℕ) (similarity : α) : α :=
  if i < N then
    simpleDotLoop A B N (i + 1) (similarity + A i * B i)
  else similarity
termination_by N - i
decreasing_by omega

/-- Non-unrolled reference for the dot-product kernel. -/
def simpleDot (A B : ℕ → α) (N : ℕ) : α :=
  simpleDotLoop A B N 0 0

end SimpleLoops

/-! ## Instantiations at exact element values, one per source function -/

/-- `cosine_similarity_f_basic` over exact element values. -/
def cosine_similarity_f_basic : (ℕ → ℚ) → (ℕ → ℚ) → ℕ → ℚ × ℚ × ℚ :=
  cosine_similarity_basic

/-- `cosine_similarity_d_basic` over exact element values. -/
def cosine_similarity_d_basic : (ℕ → ℚ) → (ℕ → ℚ) → ℕ → ℚ × ℚ × ℚ :=
  cosine_similarity_basic

/-- `euclidean_distance_similarity_f_basic` over exact element values. -/
def euclidean_distance_similarity_f_basic : (ℕ → ℚ) → (ℕ → ℚ) → ℕ → ℚ :=
  euclidean_distance_similarity_basic

/-- `euclidean_distance_similarity_d_basic` over exact element values. -/
def euclidean_distance_similarity_d_basic : (ℕ → ℚ) → (ℕ → ℚ) → ℕ → ℚ :=
  euclidean_distance_similarity_basic

/-- `dot_product_similarity_f_basic` over exact element values. -/
def dot_product_similarity_f_basic : (ℕ → ℚ) → (ℕ → ℚ) → ℕ → ℚ :=
  dot_product_similarity_basic

/-- The value of the `double` accumulator of `dot_product_similarity_d_basic`
(src/similarity_functions_basic.h lines 244-262) at the `return` statement,
over exact element values. The C function is declared `static float`, so the
value actually returned is this accumulator narrowed to `float`. -/
def dot_product_similarity_d_basic_acc : (ℕ → ℚ) → (ℕ → ℚ) → ℕ → ℚ :=
  dot_product_similarity_basic

/-- A rational is the exact value of some IEEE-754 binary32 (`float`) number:
an integer significand of magnitude below `2 ^ 24` scaled by a power of two.
This ignores the exponent-range limits, so it is a superset of the finite
`float` values; a value outside even this superset cannot be returned
unchanged through a `float` return type, whatever rounding mode applies. -/
def Float32Representable (q : ℚ) : Prop :=
  ∃ m e : ℤ, m.natAbs < 2 ^ 24 ∧ q = (m : ℚ) * (2 : ℚ) ^ e

/-- The searched array of the spec's concrete scenario: `A = [1,2,3,4,5]`. -/
def scenarioA : ℕ → ℚ := fun i => [1, 2, 3, 4, 5].getD i 0

/-- The compared array of the spec's concrete scenario: `B = [5,4,3,2,1]`. -/
def scenarioB : ℕ → ℚ := fun i => [5, 4, 3, 2, 1].getD i 0

/-! ## Capability detection and the dispatch table (src/sqlite-ndvss.c)

`sqlite3_ndvss_init` (lines 674-724) probes CPUID on x86-64 and rebinds the
six kernel function pointers (lines 35-42) and the diagnostic string
`g_instruction_set` (line 45) via `LOAD_SIMILARITY_FUNCTIONS` (lines 52-59).
The kernel implementations of a family are identified here by a `Family`
tag; the model records which family each pointer is bound to. -/

/-- The kernel families the x86-64 runtime probe can select, plus the
fixed-target families and the scalar default. The tag names are the
source's function-name suffixes. -/
inductive Family where
  | basic
  | sse41
  | avx
  | avx2
  | avx512f
  | neon
  | rvv
deriving DecidableEq

/-- The suffix string `LOAD_SIMILARITY_FUNCTIONS(SUFFIX)` stores into
`g_instruction_set` via `STR(SUFFIX)` for each family. -/
def Family.suffix : Family → String
  | .basic => "basic"
  | .sse41 => "sse41"
  | .avx => "avx"
  | .avx2 => "avx2"
  | .avx512f => "avx512f"
  | .neon => "neon"
  | .rvv => "rvv"

/-- The CPUID state `sqlite3_ndvss_init` reads on x86-64: whether the
leaf-1 query `__get_cpuid(1, ...)` succeeds and the `ecx` it returns, and
whether the leaf-7 query `__get_cpuid_count(7, 0, ...)` succeeds and the
`ebx` it returns. -/
structure CpuId where
  leaf1_ok : Bool
  ecx1 : ℕ
  leaf7_ok : Bool
  ebx7 : ℕ

/-- `has_sse41` after the standard-feature check (src/sqlite-ndvss.c
lines 698-699): leaf-1 `ecx` bit 19. -/
def has_sse41 (c : CpuId) : Bool :=
  c.leaf1_ok && c.ecx1.testBit 19

/-- `has_avx` after the standard-feature check (src/sqlite-ndvss.c
lines 698-705): leaf-1 `ecx` bit 28, cleared again when OSXSAVE
(`ecx` bit 27) is absent. -/
def has_avx (c : CpuId) : Bool :=
  c.leaf1_ok && (c.ecx1.testBit 28 && c.ecx1.testBit 27)

/-- `has_avx2` after the extended-feature check (src/sqlite-ndvss.c
lines 707-710), which only runs when `has_avx` holds and the leaf-7 query
succeeds: leaf-7 `ebx` bit 5. -/
def has_avx2 (c : CpuId) : Bool :=
  has_avx c && (c.leaf7_ok && c.ebx7.testBit 5)

/-- `has_avx512f` after the extended-feature check (src/sqlite-ndvss.c
lines 707-710): leaf-7 `ebx` bit 16, likewise gated on `has_avx`. -/
def has_avx512f (c : CpuId) : Bool :=
  has_avx c && (c.leaf7_ok && c.ebx7.testBit 16)

/-- The six kernel function pointers (src/sqlite-ndvss.c lines 35-42),
each recorded as the family whose implementation it points to, together
with the diagnostic string `g_instruction_set` (line 45). -/
structure KernelTable where
  cosine_func_f : Family
  cosine_func_d : Family
  euclidean_func_f : Family
  euclidean_func_d : Family
  dot_product_func_f : Family
  dot_product_func_d : Family
  g_instruction_set : String

/-- The static initializers (src/sqlite-ndvss.c lines 35-45): every
pointer set to the basic implementation, `g_instruction_set = "none"`. -/
def initialTable : KernelTable :=
  { cosine_func_f := .basic
    cosine_func_d := .basic
    euclidean_func_f := .basic
    euclidean_func_d := .basic
    dot_product_func_f := .basic
    dot_product_func_d := .basic
    g_instruction_set := "none" }

/-- `LOAD_SIMILARITY_FUNCTIONS(SUFFIX)` (src/sqlite-ndvss.c lines 52-59):
rebinds all six pointers to the family's implementations and snprintf-s the
suffix into `g_instruction_set`. -/
def LOAD_SIMILARITY_FUNCTIONS (fam : Family) : KernelTable :=
  { cosine_func_f := fam
    cosine_func_d := fam
    euclidean_func_f := fam
    euclidean_func_d := fam
    dot_product_func_f := fam
    dot_product_func_d := fam
    g_instruction_set := fam.suffix }

/-- The x86-64 runtime-detection branch of `sqlite3_ndvss_init`
(src/sqlite-ndvss.c lines 687-724): given the CPUID state and the table as
initialized, select AVX-512F, else AVX2, else AVX, else SSE4.1, else leave
the table untouched. -/
def sqlite3_ndvss_init_x86 (c : CpuId) (t : KernelTable) : KernelTable :=
  if has_avx512f c then LOAD_SIMILARITY_FUNCTIONS .avx512f
  else if has_avx2 c then LOAD_SIMILARITY_FUNCTIONS .avx2
  else if has_avx c then LOAD_SIMILARITY_FUNCTIONS .avx
  else if has_sse41 c then LOAD_SIMILARITY_FUNCTIONS .sse41
  else t

/-- The spec's descending preference order of the x86-64 vector families:
widest first. -/
def x86Preference : List Family := [.avx512f, .avx2, .avx, .sse41]

/-- Whether a family's required feature flags are all present, as the code
computes them. -/
def familySupported (c : CpuId) : Family → Bool
  | .avx512f => has_avx512f c
  | .avx2 => has_avx2 c
  | .avx => has_avx c
  | .sse41 => has_sse41 c
  | _ => false

/-- The spec's resolution rule: the first family in descending preference
order whose required features are all present; the scalar set when none
is. -/
def firstSupported (c : CpuId) : Family :=
  ((x86Preference.find? (familySupported c)).getD .basic)

/-- `ndvss_instruction_set` (src/sqlite-ndvss.c lines 481-486): returns the
current `g_instruction_set` string. -/
def ndvss_instruction_set (t : KernelTable) : String :=
  t.g_instruction_set

/-! ## SQL entry-point glue (src/sqlite-ndvss.c)

An SQLite argument value as the entry points inspect it; `blob` carries
its byte length and its contents read back as the element type of the
entry point, exactly. The entry points are parameterized by the kernel
function the dispatch-table pointer holds at call time. A function result
is either an `sqlite3_result_error` message or an `sqlite3_result_double`
value. -/

/-- An SQLite value: NULL, a blob (byte length and element contents), or
an integer. -/
inductive SqlValue where
  | null : SqlValue
  | blob (bytes : ℕ) (data : ℕ → ℚ) : SqlValue
  | int (value : ℤ) : SqlValue

/-- `sqlite3_value_type(v) == SQLITE_NULL`. -/
def SqlValue.isNull : SqlValue → Bool
  | .null => true
  | _ => false

/-- `sqlite3_value_bytes`. -/
def sqlite3_value_bytes : SqlValue → ℕ
  | .blob b _ => b
  | _ => 0

/-- `sqlite3_value_blob`, read as an array of the entry point's element
type. -/
def sqlite3_value_blob : SqlValue → (ℕ → ℚ)
  | .blob _ d => d
  | _ => fun _ => 0

/-- `sqlite3_value_int`. -/
def sqlite3_value_int : SqlValue → ℤ
  | .int v => v
  | _ => 0

/-- Outcome of one entry-point call: an error message or a double
result. A double value is a rational, so the result payload is carried
exactly as `ℚ`. -/
inductive NdvssResult where
  | error (msg : String)
  | value (x : ℚ)
deriving DecidableEq

/-- The vector-size computation every entry point repeats
(e.g. src/sqlite-ndvss.c lines 205-213): `vector_size = -1`; when a third,
non-NULL argument is given, `vector_size = sqlite3_value_int(argv[2])`;
when still `< 1`, `vector_size = arg1_size_bytes / sizeof(element)`.
`element_size` is 4 for the `_f` entry points and 8 for the `_d` ones. -/
def ndvss_vector_size (element_size : ℕ) (argv : List SqlValue) : ℤ :=
  let vs : ℤ :=
    if 2 < argv.length ∧ (argv.getD 2 .null).isNull = false then
      sqlite3_value_int (argv.getD 2 .null)
    else -1
  if vs < 1 then ((sqlite3_value_bytes (argv.getD 0 .null)) / element_size : ℕ)
  else vs

/-- The argument checks every entry point repeats (argument count,
nullability, equal byte lengths), as a predicate. -/
def ndvssArgsOk (argv : List SqlValue) : Prop :=
  2 ≤ argv.length ∧
  (argv.getD 0 .null).isNull = false ∧
  (argv.getD 1 .null).isNull = false ∧
  sqlite3_value_bytes (argv.getD 0 .null) = sqlite3_value_bytes (argv.getD 1 .null)

instance (argv : List SqlValue) : Decidable (ndvssArgsOk argv) := by
  unfold ndvssArgsOk; infer_instance

/-- `ndvss_cosine_similarity_f` (src/sqlite-ndvss.c lines 77-119),
parameterized by the kernel `cosine_func_f` points to and by `sqrtf_impl`,
the C library's `sqrtf` (a double-to-double map whose outputs are
rationals; nothing about its numerics is assumed). After validation the
kernel is called once; a zero `dividerA` or `dividerB` short-circuits to
the double 0.0, otherwise the similarity is divided by
`sqrtf(dividerA * dividerB)`. -/
def ndvss_cosine_similarity_f (sqrtf_impl : ℚ → ℚ)
    (cosine_func_f : (ℕ → ℚ) → (ℕ → ℚ) → ℕ → ℚ × ℚ × ℚ)
    (argv : List SqlValue) : NdvssResult :=
  if argv.length < 2 then
    .error "2 arguments needs to be given: searched array, column/compared array, optionally the array length."
  else if (argv.getD 0 .null).isNull || (argv.getD 1 .null).isNull then
    .error "One of the required arguments is null."
  else if sqlite3_value_bytes (argv.getD 0 .null) ≠ sqlite3_value_bytes (argv.getD 1 .null) then
    .error "The arrays are not the same length."
  else
    let r := cosine_func_f (sqlite3_value_blob (argv.getD 0 .null))
      (sqlite3_value_blob (argv.getD 1 .null)) (ndvss_vector_size 4 argv).toNat
    if r.2.1 = 0 ∨ r.2.2 = 0 then .value 0
    else .value (r.1 / sqrtf_impl (r.2.1 * r.2.2))

/-- `ndvss_cosine_similarity_d` (src/sqlite-ndvss.c lines 131-172),
parameterized by the kernel `cosine_func_d` points to and by `sqrt_impl`,
the C library's `sqrt`. -/
def ndvss_cosine_similarity_d (sqrt_impl : ℚ → ℚ)
    (cosine_func_d : (ℕ → ℚ) → (ℕ → ℚ) → ℕ → ℚ × ℚ × ℚ)
    (argv : List SqlValue) : NdvssResult :=
  if argv.length < 2 then
    .error "2 arguments needs to be given: searched array, column/compared array, optionally the array length."
  else if (argv.getD 0 .null).isNull || (argv.getD 1 .null).isNull then
    .error "One of the required arguments is null."
  else if sqlite3_value_bytes (argv.getD 0 .null) ≠ sqlite3_value_bytes (argv.getD 1 .null) then
    .error "The arrays are not the same length."
  else
    let r := cosine_func_d (sqlite3_value_blob (argv.getD 0 .null))
      (sqlite3_value_blob (argv.getD 1 .null)) (ndvss_vector_size 8 argv).toNat
    if r.2.1 = 0 ∨ r.2.2 = 0 then .value 0
    else .value (r.1 / sqrt_impl (r.2.1 * r.2.2))

/-- `ndvss_euclidean_distance_similarity_f` (src/sqlite-ndvss.c
lines 184-219), parameterized by the kernel `euclidean_func_f` points to
and by `sqrtf_impl`, the C library's `sqrtf`: the kernel's accumulated
value is square-rooted before being returned. -/
def ndvss_euclidean_distance_similarity_f (sqrtf_impl : ℚ → ℚ)
    (euclidean_func_f : (ℕ → ℚ) → (ℕ → ℚ) → ℕ → ℚ)
    (argv : List SqlValue) : NdvssResult :=
  if argv.length < 2 then
    .error "2 arguments needs to be given: searched array, column/compared array, optionally the array length."
  else if (argv.getD 0 .null).isNull || (argv.getD 1 .null).isNull then
    .error "One of the given arguments is null."
  else if sqlite3_value_bytes (argv.getD 0 .null) ≠ sqlite3_value_bytes (argv.getD 1 .null) then
    .error "The arrays are not the same length."
  else
    .value (sqrtf_impl (euclidean_func_f (sqlite3_value_blob (argv.getD 0 .null))
      (sqlite3_value_blob (argv.getD 1 .null)) (ndvss_vector_size 4 argv).toNat))

/-- `ndvss_euclidean_distance_similarity_d` (src/sqlite-ndvss.c
lines 232-267), parameterized by the kernel `euclidean_func_d` points to
and by `sqrt_impl`, the C library's `sqrt`. -/
def ndvss_euclidean_distance_similarity_d (sqrt_impl : ℚ → ℚ)
    (euclidean_func_d : (ℕ → ℚ) → (ℕ → ℚ) → ℕ → ℚ)
    (argv : List SqlValue) : NdvssResult :=
  if argv.length < 2 then
    .error "2 arguments needs to be given: searched array, column/compared array, optionally the array length."
  else if (argv.getD 0 .null).isNull || (argv.getD 1 .null).isNull then
    .error "One of the given arguments is null."
  else if sqlite3_value_bytes (argv.getD 0 .null) ≠ sqlite3_value_bytes (argv.getD 1 .null) then
    .error "The arrays are not the same length."
  else
    .value (sqrt_impl (euclidean_func_d (sqlite3_value_blob (argv.getD 0 .null))
      (sqlite3_value_blob (argv.getD 1 .null)) (ndvss_vector_size 8 argv).toNat))

/-- `ndvss_euclidean_distance_similarity_squared_f` (src/sqlite-ndvss.c
lines 279-313), parameterized by the kernel `euclidean_func_f` points to:
the same shared kernel, its value returned without the square root. -/
def ndvss_euclidean_distance_similarity_squared_f
    (euclidean_func_f : (ℕ → ℚ) → (ℕ → ℚ) → ℕ → ℚ)
    (argv : List SqlValue) : NdvssResult :=
  if argv.length < 2 then
    .error "2 arguments needs to be given: searched array, column/compared array, optionally the array length."
  else if (argv.getD 0 .null).isNull || (argv.getD 1 .null).isNull then
    .error "One of the given arguments is null."
  else if sqlite3_value_bytes (argv.getD 0 .null) ≠ sqlite3_value_bytes (argv.getD 1 .null) then
    .error "The arrays are not the same length."
  else
    .value (euclidean_func_f (sqlite3_value_blob (argv.getD 0 .null))
      (sqlite3_value_blob (argv.getD 1 .null)) (ndvss_vector_size 4 argv).toNat)

/-- `ndvss_euclidean_distance_similarity_squared_d` (src/sqlite-ndvss.c
lines 325-359), parameterized by the kernel `euclidean_func_d` points
to. -/
def ndvss_euclidean_distance_similarity_squared_d
    (euclidean_func_d : (ℕ → ℚ) → (ℕ → ℚ) → ℕ → ℚ)
    (argv : List SqlValue) : NdvssResult :=
  if argv.length < 2 then
    .error "2 arguments needs to be given: searched array, column/compared array, optionally the array length."
  else if (argv.getD 0 .null).isNull || (argv.getD 1 .null).isNull then
    .error "One of the given arguments is null."
  else if sqlite3_value_bytes (argv.getD 0 .null) ≠ sqlite3_value_bytes (argv.getD 1 .null) then
    .error "The arrays are not the same length."
  else
    .value (euclidean_func_d (sqlite3_value_blob (argv.getD 0 .null))
      (sqlite3_value_blob (argv.getD 1 .null)) (ndvss_vector_size 8 argv).toNat)

/-- A concrete argument vector used to instantiate the entry-point
theorems: two 8-byte blobs (one float64 element, two float32 elements)
holding the constant values 3 and 0. -/
def witnessArgv : List SqlValue :=
  [SqlValue.blob 8 (fun _ => 3), SqlValue.blob 8 (fun _ => 0)]

/-- A concrete argument vector with empty blobs: both byte lengths 0, so
the computed element count is 0 for either element type. -/
def witnessArgvEmpty : List SqlValue :=
  [SqlValue.blob 0 (fun _ => 1), SqlValue.blob 0 (fun _ => 2)]

/-- A stand-in for the C library's square-root routine when instantiating
the entry-point theorems at a concrete input; the theorems hold for every
such routine. -/
def witnessSqrt : ℚ → ℚ := fun q => q

/-! ## Helper lemmas: the unrolled loops against the simple loops

Over an arbitrary carrier with the same operations and no algebraic laws
assumed: both sides perform the identical sequence of additions and
multiplications, so the equalities hold bitwise for IEEE-754 floats as
well. -/

section LoopLemmas

variable {α : Type} [Add α] [Mul α] [Sub α] [Zero α]

theorem cosineTail_eq_simple (A B : ℕ → α) (N : ℕ) :
    ∀ k i s dA dB, N - i ≤ k →
      cosineTail A B N i s dA dB = simpleCosineLoop A B N i s dA dB := by
  intro k
  induction k with
  | zero =>
    intro i s dA dB h
    rw [cosineTail, simpleCosineLoop]
    have hi : ¬ i < N := by omega
    rw [if_neg hi, if_neg hi]
  | succ k ih =>
    intro i s dA dB h
    rw [cosineTail, simpleCosineLoop]
    by_cases hi : i < N
    · rw [if_pos hi, if_pos hi]
      exact ih (i + 1) _ _ _ (by omega)
    · rw [if_neg hi, if_neg hi]

theorem cosineMain_eq_simple (A B : ℕ → α) (N : ℕ) :
    ∀ k i s dA dB, N - i ≤ k →
      cosineMain A B N i s dA dB = simpleCosineLoop A B N i s dA dB := by
  intro k
  induction k with
  | zero =>
    intro i s dA dB h
    rw [cosineMain]
    have hi : ¬ i + 3 < N := by omega
    rw [if_neg hi]
    exact cosineTail_eq_simple A B N (N - i) i s dA dB le_rfl
  | succ k ih =>
    intro i s dA dB h
    rw [cosineMain]
    by_cases hi : i + 3 < N
    · rw [if_pos hi]
      rw [simpleCosineLoop, if_pos (show i < N by omega)]
      rw [simpleCosineLoop, if_pos (show i + 1 < N by omega)]
      rw [simpleCosineLoop, if_pos (show i + 1 + 1 < N by omega)]
      rw [simpleCosineLoop, if_pos (show i + 1 + 1 + 1 < N by omega)]
      have h2 : i + 1 + 1 = i + 2 := by omega
      have h3 : i + 1 + 1 + 1 = i + 3 := by omega
      have h4 : i + 1 + 1 + 1 + 1 = i + 4 := by omega
      rw [h2, h3, h4]
      exact ih (i + 4) _ _ _ (by omega)
    · rw [if_neg hi]
      exact cosineTail_eq_simple A B N (k + 1) i s dA dB h

theorem euclideanTail_eq_simple (A B : ℕ → α) (N : ℕ) :
    ∀ k i s, N - i ≤ k →
      euclideanTail A B N i s = simpleEuclideanLoop A B N i s := by
  intro k
  induction k with
  | zero =>
    intro i s h
    rw [euclideanTail, simpleEuclideanLoop]
    have hi : ¬ i < N := by omega
    rw [if_neg hi, if_neg hi]
  | succ k ih =>
    intro i s h
    rw [euclideanTail, simpleEuclideanLoop]
    by_cases hi : i < N
    · rw [if_pos hi, if_pos hi]
      exact ih (i + 1) _ (by omega)
    · rw [if_neg hi, if_neg hi]

theorem euclideanMain_eq_simple (A B : ℕ → α) (N : ℕ) :
    ∀ k i s, N - i ≤ k →
      euclideanMain A B N i s = simpleEuclideanLoop A B N i s := by
  intro k
  induction k with
  | zero =>
    intro i s h
    rw [euclideanMain]
    have hi : ¬ i + 3 < N := by omega
    rw [if_neg hi]
    exact euclideanTail_eq_simple A B N (N - i) i s le_rfl
  | succ k ih =>
    intro i s h
    rw [euclideanMain]
    by_cases hi : i + 3 < N
    · rw [if_pos hi]
      rw [simpleEuclideanLoop, if_pos (show i < N by omega)]
      rw [simpleEuclideanLoop, if_pos (show i + 1 < N by omega)]
      rw [simpleEuclideanLoop, if_pos (show i + 1 + 1 < N by omega)]
      rw [simpleEuclideanLoop, if_pos (show i + 1 + 1 + 1 < N by omega)]
      have h2 : i + 1 + 1 = i + 2 := by omega
      have h3 : i + 1 + 1 + 1 = i + 3 := by omega
      have h4 : i + 1 + 1 + 1 + 1 = i + 4 := by omega
      rw [h2, h3, h4]
      exact ih (i + 4) _ (by omega)
    · rw [if_neg hi]
      exact euclideanTail_eq_simple A B N (k + 1) i s h

theorem dotTail_eq_simple (A B : ℕ → α) (N : ℕ) :
    ∀ k i s, N - i ≤ k →
      dotTail A B N i s = simpleDotLoop A B N i s := by
  intro k
  induction k with
  | zero =>
    intro i s h
    rw [dotTail, simpleDotLoop]
    have hi : ¬ i < N := by omega
    rw [if_neg hi, if_neg hi]
  | succ k ih =>
    intro i s h
    rw [dotTail, simpleDotLoop]
    by_cases hi : i < N
    · rw [if_pos hi, if_pos hi]
      exact ih (i + 1) _ (by omega)
    · rw [if_neg hi, if_neg hi]

theorem dotMain_eq_simple (A B : ℕ → α) (N : ℕ) :
    ∀ k i s, N - i ≤ k →
      dotMain A B N i s = simpleDotLoop A B N i s := by
  intro k
  induction k with
  | zero =>
    intro i s h
    rw [dotMain]
    have hi : ¬ i + 3 < N := by omega
    rw [if_neg hi]
    exact dotTail_eq_simple A B N (N - i) i s le_rfl
  | succ k ih =>
    intro i s h
    rw [dotMain]
    by_cases hi : i + 3 < N
    · rw [if_pos hi]
      rw [simpleDotLoop, if_pos (show i < N by omega)]
      rw [simpleDotLoop, if_pos (show i + 1 < N by omega)]
      rw [simpleDotLoop, if_pos (show i + 1 + 1 < N by omega)]
      rw [simpleDotLoop, if_pos (show i + 1 + 1 + 1 < N by omega)]
      have h2 : i + 1 + 1 = i + 2 := by omega
      have h3 : i + 1 + 1 + 1 = i + 3 := by omega
      have h4 : i + 1 + 1 + 1 + 1 = i + 4 := by omega
      rw [h2, h3, h4]
      exact ih (i + 4) _ (by omega)
    · rw [if_neg hi]
      exact dotTail_eq_simple A B N (k + 1) i s h

theorem cosine_basic_eq_simple (A B : ℕ → α) (N : ℕ) :
    cosine_similarity_basic A B N = simpleCosine A B N :=
  cosineMain_eq_simple A B N N 0 0 0 0 (by omega)

theorem euclidean_basic_eq_simple (A B : ℕ → α) (N : ℕ) :
    euclidean_distance_similarity_basic A B N = simpleEuclidean A B N :=
  euclideanMain_eq_simple A B N N 0 0 (by omega)

theorem dot_basic_eq_simple (A B : ℕ → α) (N : ℕ) :
    dot_product_similarity_basic A B N = simpleDot A B N :=
  dotMain_eq_simple A B N N 0 0 (by omega)

theorem simpleCosineLoop_step (A B : ℕ → α) (N i : ℕ) (s dA dB : α)
    (h : i < N) :
    simpleCosineLoop A B N i s dA dB =
      simpleCosineLoop A B N (i + 1)
        (s + A i * B i) (dA + A i * A i) (dB + B i * B i) := by
  rw [simpleCosineLoop, if_pos h]

theorem simpleEuclideanLoop_step (A B : ℕ → α) (N i : ℕ) (s : α)
    (h : i < N) :
    simpleEuclideanLoop A B N i s =
      simpleEuclideanLoop A B N (i + 1) (s + (A i - B i) * (A i - B i)) := by
  rw [simpleEuclideanLoop, if_pos h]

theorem simpleDotLoop_step (A B : ℕ → α) (N i : ℕ) (s : α)
    (h : i < N) :
    simpleDotLoop A B N i s = simpleDotLoop A B N (i + 1) (s + A i * B i) := by
  rw [simpleDotLoop, if_pos h]

theorem simpleCosineLoop_stop (A B : ℕ → α) (N i : ℕ) (s dA dB : α)
    (h : ¬ i < N) : simpleCosineLoop A B N i s dA dB = (s, dA, dB) := by
  rw [simpleCosineLoop, if_neg h]

theorem simpleEuclideanLoop_stop (A B : ℕ → α) (N i : ℕ) (s : α)
    (h : ¬ i < N) : simpleEuclideanLoop A B N i s = s := by
  rw [simpleEuclideanLoop, if_neg h]

theorem simpleDotLoop_stop (A B : ℕ → α) (N i : ℕ) (s : α)
    (h : ¬ i < N) : simpleDotLoop A B N i s = s := by
  rw [simpleDotLoop, if_neg h]

theorem cosine_basic_zero (A B : ℕ → α) :
    cosine_similarity_basic A B 0 = (0, 0, 0) := by
  rw [cosine_basic_eq_simple, simpleCosine,
    simpleCosineLoop_stop A B 0 0 _ _ _ (by omega)]

theorem euclidean_basic_zero (A B : ℕ → α) :
    euclidean_distance_similarity_basic A B 0 = 0 := by
  rw [euclidean_basic_eq_simple, simpleEuclidean,
    simpleEuclideanLoop_stop A B 0 0 _ (by omega)]

theorem dot_basic_zero (A B : ℕ → α) :
    dot_product_similarity_basic A B 0 = 0 := by
  rw [dot_basic_eq_simple, simpleDot, simpleDotLoop_stop A B 0 0 _ (by omega)]

end LoopLemmas

/-! ## Helper lemmas over exact values: symmetry and self-comparison -/

theorem simpleDotLoop_comm (A B : ℕ → ℚ) (N : ℕ) :
    ∀ k i s, N - i ≤ k → simpleDotLoop A B N i s = simpleDotLoop B A N i s := by
  intro k
  induction k with
  | zero =>
    intro i s h
    have hi : ¬ i < N := by omega
    rw [simpleDotLoop_stop A B N i s hi, simpleDotLoop_stop B A N i s hi]
  | succ k ih =>
    intro i s h
    by_cases hi : i < N
    · rw [simpleDotLoop, if_pos hi]
      conv_rhs => rw [simpleDotLoop, if_pos hi]
      rw [mul_comm (B i) (A i)]
      exact ih (i + 1) _ (by omega)
    · rw [simpleDotLoop_stop A B N i s hi, simpleDotLoop_stop B A N i s hi]

theorem simpleEuclideanLoop_comm (A B : ℕ → ℚ) (N : ℕ) :
    ∀ k i s, N - i ≤ k →
      simpleEuclideanLoop A B N i s = simpleEuclideanLoop B A N i s := by
  intro k
  induction k with
  | zero =>
    intro i s h
    have hi : ¬ i < N := by omega
    rw [simpleEuclideanLoop_stop A B N i s hi, simpleEuclideanLoop_stop B A N i s hi]
  | succ k ih =>
    intro i s h
    by_cases hi : i < N
    · rw [simpleEuclideanLoop, if_pos hi]
      conv_rhs => rw [simpleEuclideanLoop, if_pos hi]
      rw [show (B i - A i) * (B i - A i) = (A i - B i) * (A i - B i) by ring]
      exact ih (i + 1) _ (by omega)
    · rw [simpleEuclideanLoop_stop A B N i s hi, simpleEuclideanLoop_stop B A N i s hi]

theorem simpleEuclideanLoop_self (A : ℕ → ℚ) (N : ℕ) :
    ∀ k i s, N - i ≤ k → simpleEuclideanLoop A A N i s = s := by
  intro k
  induction k with
  | zero =>
    intro i s h
    exact simpleEuclideanLoop_stop A A N i s (by omega)
  | succ k ih =>
    intro i s h
    by_cases hi : i < N
    · rw [simpleEuclideanLoop, if_pos hi]
      rw [show s + (A i - A i) * (A i - A i) = s by ring]
      exact ih (i + 1) s (by omega)
    · exact simpleEuclideanLoop_stop A A N i s hi

theorem simpleCosineLoop_self (A : ℕ → ℚ) (N : ℕ) :
    ∀ k i c, N - i ≤ k →
      simpleCosineLoop A A N i c c c =
        (simpleDotLoop A A N i c, simpleDotLoop A A N i c, simpleDotLoop A A N i c) := by
  intro k
  induction k with
  | zero =>
    intro i c h
    have hi : ¬ i < N := by omega
    rw [simpleCosineLoop_stop A A N i c c c hi, simpleDotLoop_stop A A N i c hi]
  | succ k ih =>
    intro i c h
    by_cases hi : i < N
    · rw [simpleCosineLoop, if_pos hi, simpleDotLoop, if_pos hi]
      exact ih (i + 1) (c + A i * A i) (by omega)
    · rw [simpleCosineLoop_stop A A N i c c c hi, simpleDotLoop_stop A A N i c hi]

/-! ## Claim theorems -/

/-- C6: for every element count and every pair of arrays, each scalar
kernel's 4-way manually unrolled main loop followed by its one-element
remainder loop computes the same result as a simple non-unrolled loop
accumulating one element per iteration in index order; the equality holds
over an arbitrary carrier of the kernels' `+`, `*`, `-` with no algebraic
laws assumed, hence the accumulation sequence (and so the IEEE-754 result,
bit for bit) is unchanged by the unrolling. -/
theorem unrolled_kernels_eq_simple_loops
    {α : Type} [Add α] [Mul α] [Sub α] [Zero α] (A B : ℕ → α) (N : ℕ) :
    dot_product_similarity_basic A B N = simpleDot A B N ∧
    euclidean_distance_similarity_basic A B N = simpleEuclidean A B N ∧
    cosine_similarity_basic A B N = simpleCosine A B N :=
  ⟨dot_basic_eq_simple A B N, euclidean_basic_eq_simple A B N,
    cosine_basic_eq_simple A B N⟩

/-- C3: with element count `N = 0`, every scalar kernel of either element
type yields exactly zero accumulators: both dot products are `0`, both
squared Euclidean distances are `0`, and both cosine kernels return
similarity `0` with both out-parameters `divider_a = divider_b = 0`. -/
theorem zero_length_kernels_all_zero (A B : ℕ → ℚ) :
    dot_product_similarity_f_basic A B 0 = 0 ∧
    dot_product_similarity_d_basic_acc A B 0 = 0 ∧
    euclidean_distance_similarity_f_basic A B 0 = 0 ∧
    euclidean_distance_similarity_d_basic A B 0 = 0 ∧
    cosine_similarity_f_basic A B 0 = (0, 0, 0) ∧
    cosine_similarity_d_basic A B 0 = (0, 0, 0) :=
  ⟨dot_basic_zero A B, dot_basic_zero A B, euclidean_basic_zero A B,
    euclidean_basic_zero A B, cosine_basic_zero A B, cosine_basic_zero A B⟩

/-- C7: the scalar dot-product and squared-Euclidean kernels of either
element type are symmetric in their two array arguments, exactly. -/
theorem kernels_symmetric (A B : ℕ → ℚ) (N : ℕ) :
    dot_product_similarity_f_basic A B N = dot_product_similarity_f_basic B A N ∧
    dot_product_similarity_d_basic_acc A B N = dot_product_similarity_d_basic_acc B A N ∧
    euclidean_distance_similarity_f_basic A B N
      = euclidean_distance_similarity_f_basic B A N ∧
    euclidean_distance_similarity_d_basic A B N
      = euclidean_distance_similarity_d_basic B A N := by
  have hdot : dot_product_similarity_basic A B N = dot_product_similarity_basic B A N := by
    rw [dot_basic_eq_simple, dot_basic_eq_simple, simpleDot, simpleDot]
    exact simpleDotLoop_comm A B N N 0 0 (by omega)
  have heuc : euclidean_distance_similarity_basic A B N
      = euclidean_distance_similarity_basic B A N := by
    rw [euclidean_basic_eq_simple, euclidean_basic_eq_simple,
      simpleEuclidean, simpleEuclidean]
    exact simpleEuclideanLoop_comm A B N N 0 0 (by omega)
  exact ⟨hdot, hdot, heuc, heuc⟩

/-- C8: comparing a vector with itself, for every array and element count
of either element type: the squared Euclidean distance is exactly `0`, and
the cosine kernel's two out-norms are equal with the returned similarity
equal to that norm. -/
theorem self_comparison_kernels (A : ℕ → ℚ) (N : ℕ) :
    euclidean_distance_similarity_f_basic A A N = 0 ∧
    euclidean_distance_similarity_d_basic A A N = 0 ∧
    (cosine_similarity_f_basic A A N).2.1 = (cosine_similarity_f_basic A A N).2.2 ∧
    (cosine_similarity_f_basic A A N).1 = (cosine_similarity_f_basic A A N).2.1 ∧
    (cosine_similarity_d_basic A A N).2.1 = (cosine_similarity_d_basic A A N).2.2 ∧
    (cosine_similarity_d_basic A A N).1 = (cosine_similarity_d_basic A A N).2.1 := by
  have heuc : euclidean_distance_similarity_basic A A N = (0 : ℚ) := by
    rw [euclidean_basic_eq_simple, simpleEuclidean]
    exact simpleEuclideanLoop_self A N N 0 0 (by omega)
  have hcos : cosine_similarity_basic A A N =
      (simpleDot A A N, simpleDot A A N, simpleDot A A N) := by
    rw [cosine_basic_eq_simple, simpleCosine, simpleDot]
    exact simpleCosineLoop_self A N N 0 0 le_rfl
  refine ⟨heuc, heuc, ?_, ?_, ?_, ?_⟩ <;>
    simp [cosine_similarity_f_basic, cosine_similarity_d_basic, hcos]

/-- C4: the spec's concrete scenario. For `A = [1,2,3,4,5]`,
`B = [5,4,3,2,1]`, `N = 5`, the float64 kernels yield dot product `35`,
squared Euclidean distance `40`, and the cosine triple
`(similarity, divider_a, divider_b) = (35, 55, 55)`; the caller-side
combination `35 / sqrt(55 * 55)` equals `35 / 55`. -/
theorem scenario_kernel_values :
    dot_product_similarity_d_basic_acc scenarioA scenarioB 5 = 35 ∧
    euclidean_distance_similarity_d_basic scenarioA scenarioB 5 = 40 ∧
    cosine_similarity_d_basic scenarioA scenarioB 5 = (35, 55, 55) ∧
    (35 : ℝ) / Real.sqrt (55 * 55) = 35 / 55 := by
  refine ⟨?_, ?_, ?_, ?_⟩
  · show dot_product_similarity_basic scenarioA scenarioB 5 = 35
    rw [dot_basic_eq_simple, simpleDot,
      simpleDotLoop_step, simpleDotLoop_step, simpleDotLoop_step,
      simpleDotLoop_step, simpleDotLoop_step, simpleDotLoop_stop]
    · norm_num [scenarioA, scenarioB]
    all_goals norm_num
  · show euclidean_distance_similarity_basic scenarioA scenarioB 5 = 40
    rw [euclidean_basic_eq_simple, simpleEuclidean,
      simpleEuclideanLoop_step, simpleEuclideanLoop_step, simpleEuclideanLoop_step,
      simpleEuclideanLoop_step, simpleEuclideanLoop_step, simpleEuclideanLoop_stop]
    · norm_num [scenarioA, scenarioB]
    all_goals norm_num
  · show cosine_similarity_basic scenarioA scenarioB 5 = (35, 55, 55)
    rw [cosine_basic_eq_simple, simpleCosine,
      simpleCosineLoop_step, simpleCosineLoop_step, simpleCosineLoop_step,
      simpleCosineLoop_step, simpleCosineLoop_step, simpleCosineLoop_stop]
    · norm_num [scenarioA, scenarioB]
    all_goals norm_num
  · rw [Real.sqrt_mul_self (by norm_num : (0 : ℝ) ≤ 55)]

/-- C1 (code bug): at `A = [16777217.0]`, `B = [1.0]`, `N = 1` — all three
values exactly representable as float64, with the single product and sum
exact in float64 arithmetic — the float64 dot-product kernel's `double`
accumulator holds exactly `16777217 = 2^24 + 1` at the return statement,
and that value is not representable in binary32; the function's declared
`float` return type (contradicting its own doc comment "Returns:
Similarity as a dot product DOUBLE" and the `double`-returning
`similarity_function_d` pointer type it is bound to) therefore cannot
return the float64 value the contract requires. -/
theorem dot_d_return_narrowed_to_float :
    dot_product_similarity_d_basic_acc (fun _ => 16777217) (fun _ => 1) 1 = 16777217 ∧
    ¬ Float32Representable 16777217 := by
  constructor
  · show dot_product_similarity_basic (fun _ => (16777217 : ℚ)) (fun _ => 1) 1 = 16777217
    rw [dot_basic_eq_simple, simpleDot, simpleDotLoop_step, simpleDotLoop_stop]
    · norm_num
    all_goals norm_num
  · rintro ⟨m, e, hm, he⟩
    obtain ⟨n, rfl | rfl⟩ := e.eq_nat_or_neg
    · rw [zpow_natCast] at he
      have hz : (16777217 : ℤ) = m * 2 ^ n := by exact_mod_cast he
      match n, hz with
      | 0, hz =>
        norm_num at hz
        omega
      | n + 1, hz =>
        have h2 : (2 : ℤ) ∣ 16777217 := ⟨m * 2 ^ n, by rw [hz]; ring⟩
        norm_num at h2
    · rw [zpow_neg, zpow_natCast] at he
      have hp : (0 : ℚ) < 2 ^ n := by positivity
      rw [← div_eq_mul_inv, eq_div_iff (ne_of_gt hp)] at he
      have hz : (16777217 : ℤ) * 2 ^ n = m := by exact_mod_cast he
      have hp2 : (0 : ℤ) < 2 ^ n := by positivity
      have hge : (16777217 : ℤ) ≤ m := by nlinarith
      omega

/-! ## Capability detection: helper and claim theorems -/

/-- The x86-64 branch of `sqlite3_ndvss_init` rebinds the table to the
first supported family of the preference order, and leaves it untouched
when none is supported. -/
theorem ndvss_init_eq (c : CpuId) :
    sqlite3_ndvss_init_x86 c initialTable =
      if firstSupported c = Family.basic then initialTable
      else LOAD_SIMILARITY_FUNCTIONS (firstSupported c) := by
  cases h512 : has_avx512f c <;> cases h2 : has_avx2 c <;>
    cases hv : has_avx c <;> cases h41 : has_sse41 c <;>
      simp [sqlite3_ndvss_init_x86, firstSupported, x86Preference,
        familySupported, h512, h2, hv, h41, List.find?]

/-- C2: on x86-64, initialization reads the processor's CPUID feature
flags and binds all six kernel function pointers to the first family, in
the descending preference order AVX-512F, AVX2, AVX, SSE4.1, whose
required features are all present (`firstSupported`); and when none of the
four feature sets is present, detection does not fail: the resolution is
the Scalar set and the table — every pointer still bound to the basic
kernels — is left exactly as initialized. -/
theorem init_binds_first_supported_family (c : CpuId) :
    ((sqlite3_ndvss_init_x86 c initialTable).cosine_func_f = firstSupported c ∧
     (sqlite3_ndvss_init_x86 c initialTable).cosine_func_d = firstSupported c ∧
     (sqlite3_ndvss_init_x86 c initialTable).euclidean_func_f = firstSupported c ∧
     (sqlite3_ndvss_init_x86 c initialTable).euclidean_func_d = firstSupported c ∧
     (sqlite3_ndvss_init_x86 c initialTable).dot_product_func_f = firstSupported c ∧
     (sqlite3_ndvss_init_x86 c initialTable).dot_product_func_d = firstSupported c) ∧
    (has_avx512f c = false → has_avx2 c = false → has_avx c = false →
      has_sse41 c = false →
      firstSupported c = Family.basic ∧
      sqlite3_ndvss_init_x86 c initialTable = initialTable) := by
  constructor
  · rw [ndvss_init_eq c]
    by_cases hb : firstSupported c = Family.basic
    · rw [if_pos hb, hb]
      exact ⟨rfl, rfl, rfl, rfl, rfl, rfl⟩
    · rw [if_neg hb]
      exact ⟨rfl, rfl, rfl, rfl, rfl, rfl⟩
  · intro h512 h2 hv h41
    have hb : firstSupported c = Family.basic := by
      simp [firstSupported, x86Preference, familySupported, List.find?,
        h512, h2, hv, h41]
    exact ⟨hb, by rw [ndvss_init_eq c, if_pos hb]⟩

/-- C9 counterexample: on a processor exposing none of the probed feature
bits, initialization leaves every pointer bound to the Scalar (basic)
family, yet `ndvss_instruction_set` returns the untouched default string
"none", which is not the scalar family's name "basic": the accessor does
not name the bound kernel family in this resolution outcome. -/
theorem instruction_set_scalar_fallback_cex :
    (sqlite3_ndvss_init_x86 ⟨true, 0, true, 0⟩ initialTable).cosine_func_f
        = Family.basic ∧
    (sqlite3_ndvss_init_x86 ⟨true, 0, true, 0⟩ initialTable).dot_product_func_d
        = Family.basic ∧
    ndvss_instruction_set (sqlite3_ndvss_init_x86 ⟨true, 0, true, 0⟩ initialTable)
        = "none" ∧
    Family.suffix Family.basic = "basic" ∧
    ndvss_instruction_set (sqlite3_ndvss_init_x86 ⟨true, 0, true, 0⟩ initialTable)
        ≠ Family.suffix Family.basic := by
  refine ⟨rfl, rfl, rfl, rfl, ?_⟩
  decide

/-- C9 (amended): after initialization the accessor `ndvss_instruction_set`
returns the suffix-name of the vector kernel family all six dispatch-table
pointers are bound to whenever a vector family was selected; when no
vector instruction set was detected the pointers remain bound to the
Scalar (basic) set and the accessor returns the fixed default string
"none" rather than that family's name. -/
theorem instruction_set_names_vector_family (c : CpuId) :
    ((sqlite3_ndvss_init_x86 c initialTable).cosine_func_f = firstSupported c ∧
     (sqlite3_ndvss_init_x86 c initialTable).cosine_func_d = firstSupported c ∧
     (sqlite3_ndvss_init_x86 c initialTable).euclidean_func_f = firstSupported c ∧
     (sqlite3_ndvss_init_x86 c initialTable).euclidean_func_d = firstSupported c ∧
     (sqlite3_ndvss_init_x86 c initialTable).dot_product_func_f = firstSupported c ∧
     (sqlite3_ndvss_init_x86 c initialTable).dot_product_func_d = firstSupported c) ∧
    ndvss_instruction_set (sqlite3_ndvss_init_x86 c initialTable) =
      (if firstSupported c = Family.basic then "none"
       else (firstSupported c).suffix) := by
  rw [ndvss_init_eq c]
  by_cases hb : firstSupported c = Family.basic
  · rw [if_pos hb, if_pos hb, hb]
    exact ⟨⟨rfl, rfl, rfl, rfl, rfl, rfl⟩, rfl⟩
  · rw [if_neg hb, if_neg hb]
    exact ⟨⟨rfl, rfl, rfl, rfl, rfl, rfl⟩, rfl⟩

/-! ## SQL entry-point theorems -/

/-- C5: for every kernel the dispatch table's `euclidean_func_f` /
`euclidean_func_d` pointer holds, every C-library sqrt routine, and every
argument vector passing validation, the squared entry point returns the
shared kernel's accumulated value and the non-squared entry point returns
exactly that same kernel call's value with the square root applied: the
two registered entry points differ only in the final square root. -/
theorem euclidean_entry_sqrt_of_squared_entry
    (sqrtf_impl sqrt_impl : ℚ → ℚ)
    (kf kd : (ℕ → ℚ) → (ℕ → ℚ) → ℕ → ℚ) (argv : List SqlValue)
    (hok : ndvssArgsOk argv) :
    (ndvss_euclidean_distance_similarity_squared_f kf argv =
       NdvssResult.value (kf (sqlite3_value_blob (argv.getD 0 .null))
         (sqlite3_value_blob (argv.getD 1 .null)) (ndvss_vector_size 4 argv).toNat) ∧
     ndvss_euclidean_distance_similarity_f sqrtf_impl kf argv =
       NdvssResult.value (sqrtf_impl (kf (sqlite3_value_blob (argv.getD 0 .null))
         (sqlite3_value_blob (argv.getD 1 .null)) (ndvss_vector_size 4 argv).toNat))) ∧
    (ndvss_euclidean_distance_similarity_squared_d kd argv =
       NdvssResult.value (kd (sqlite3_value_blob (argv.getD 0 .null))
         (sqlite3_value_blob (argv.getD 1 .null)) (ndvss_vector_size 8 argv).toNat) ∧
     ndvss_euclidean_distance_similarity_d sqrt_impl kd argv =
       NdvssResult.value (sqrt_impl (kd (sqlite3_value_blob (argv.getD 0 .null))
         (sqlite3_value_blob (argv.getD 1 .null)) (ndvss_vector_size 8 argv).toNat))) := by
  obtain ⟨hlen, h0, h1, hbytes⟩ := hok
  have hl : ¬ argv.length < 2 := by omega
  have h0e := h0
  have h1e := h1
  have hbe := hbytes
  simp only [List.getD_eq_getElem?_getD] at h0e h1e hbe
  refine ⟨⟨?_, ?_⟩, ?_, ?_⟩
  all_goals
    simp only [ndvss_euclidean_distance_similarity_squared_f,
      ndvss_euclidean_distance_similarity_f,
      ndvss_euclidean_distance_similarity_squared_d,
      ndvss_euclidean_distance_similarity_d]
    rw [if_neg hl, if_neg (by simp [h0e, h1e]), if_neg (by simp [hbe])]

/-- Witness for C5: the float64 pair of entry points instantiated with the
basic kernel at a concrete two-element argument vector. -/
theorem euclidean_entry_sqrt_witness :
    ndvssArgsOk witnessArgv ∧
    ndvss_euclidean_distance_similarity_squared_d
        euclidean_distance_similarity_d_basic witnessArgv =
      NdvssResult.value (euclidean_distance_similarity_d_basic
        (sqlite3_value_blob (witnessArgv.getD 0 .null))
        (sqlite3_value_blob (witnessArgv.getD 1 .null))
        (ndvss_vector_size 8 witnessArgv).toNat) ∧
    ndvss_euclidean_distance_similarity_d witnessSqrt
        euclidean_distance_similarity_d_basic witnessArgv =
      NdvssResult.value (witnessSqrt (euclidean_distance_similarity_d_basic
        (sqlite3_value_blob (witnessArgv.getD 0 .null))
        (sqlite3_value_blob (witnessArgv.getD 1 .null))
        (ndvss_vector_size 8 witnessArgv).toNat)) := by
  have h := euclidean_entry_sqrt_of_squared_entry witnessSqrt witnessSqrt
    euclidean_distance_similarity_f_basic euclidean_distance_similarity_d_basic
    witnessArgv (by decide)
  exact ⟨by decide, h.2.1, h.2.2⟩

/-- C10: for every bound cosine kernel, C-library sqrt routine and
argument vector passing validation (at least two arguments, both
non-NULL, equal byte lengths), both cosine entry points return the SQL
double 0.0 — not an error — whenever either of the kernel's accumulated
squared norms is exactly zero, and otherwise return the kernel's
similarity divided by the square root of the product of the two norms;
with the basic kernels bound, a computed element count of 0 always takes
the zero branch. -/
theorem cosine_entry_zero_norm_policy
    (sqrtf_impl sqrt_impl : ℚ → ℚ)
    (kf kd : (ℕ → ℚ) → (ℕ → ℚ) → ℕ → ℚ × ℚ × ℚ) (argv : List SqlValue)
    (hok : ndvssArgsOk argv) :
    (∀ s dA dB,
       kf (sqlite3_value_blob (argv.getD 0 .null))
         (sqlite3_value_blob (argv.getD 1 .null))
         (ndvss_vector_size 4 argv).toNat = (s, dA, dB) →
       (dA = 0 ∨ dB = 0 →
         ndvss_cosine_similarity_f sqrtf_impl kf argv = NdvssResult.value 0) ∧
       (¬(dA = 0 ∨ dB = 0) →
         ndvss_cosine_similarity_f sqrtf_impl kf argv =
           NdvssResult.value (s / sqrtf_impl (dA * dB)))) ∧
    (∀ s dA dB,
       kd (sqlite3_value_blob (argv.getD 0 .null))
         (sqlite3_value_blob (argv.getD 1 .null))
         (ndvss_vector_size 8 argv).toNat = (s, dA, dB) →
       (dA = 0 ∨ dB = 0 →
         ndvss_cosine_similarity_d sqrt_impl kd argv = NdvssResult.value 0) ∧
       (¬(dA = 0 ∨ dB = 0) →
         ndvss_cosine_similarity_d sqrt_impl kd argv =
           NdvssResult.value (s / sqrt_impl (dA * dB)))) ∧
    ((ndvss_vector_size 4 argv).toNat = 0 →
       ndvss_cosine_similarity_f sqrtf_impl cosine_similarity_f_basic argv =
         NdvssResult.value 0) ∧
    ((ndvss_vector_size 8 argv).toNat = 0 →
       ndvss_cosine_similarity_d sqrt_impl cosine_similarity_d_basic argv =
         NdvssResult.value 0) := by
  obtain ⟨hlen, h0, h1, hbytes⟩ := hok
  have hl : ¬ argv.length < 2 := by omega
  have h0e := h0
  have h1e := h1
  have hbe := hbytes
  simp only [List.getD_eq_getElem?_getD] at h0e h1e hbe
  refine ⟨?_, ?_, ?_, ?_⟩
  · intro s dA dB hr
    constructor
    · intro hz
      simp only [ndvss_cosine_similarity_f]
      rw [if_neg hl, if_neg (by simp [h0e, h1e]), if_neg (by simp [hbe]), hr]
      exact if_pos (by simpa using hz)
    · intro hz
      simp only [ndvss_cosine_similarity_f]
      rw [if_neg hl, if_neg (by simp [h0e, h1e]), if_neg (by simp [hbe]), hr]
      exact if_neg (by simpa using hz)
  · intro s dA dB hr
    constructor
    · intro hz
      simp only [ndvss_cosine_similarity_d]
      rw [if_neg hl, if_neg (by simp [h0e, h1e]), if_neg (by simp [hbe]), hr]
      exact if_pos (by simpa using hz)
    · intro hz
      simp only [ndvss_cosine_similarity_d]
      rw [if_neg hl, if_neg (by simp [h0e, h1e]), if_neg (by simp [hbe]), hr]
      exact if_neg (by simpa using hz)
  · intro hN
    simp only [ndvss_cosine_similarity_f]
    rw [if_neg hl, if_neg (by simp [h0e, h1e]), if_neg (by simp [hbe]), hN]
    rw [show cosine_similarity_f_basic
        (sqlite3_value_blob (argv.getD 0 .null))
        (sqlite3_value_blob (argv.getD 1 .null)) 0 = ((0 : ℚ), (0 : ℚ), (0 : ℚ))
      from cosine_basic_zero _ _]
    simp
  · intro hN
    simp only [ndvss_cosine_similarity_d]
    rw [if_neg hl, if_neg (by simp [h0e, h1e]), if_neg (by simp [hbe]), hN]
    rw [show cosine_similarity_d_basic
        (sqlite3_value_blob (argv.getD 0 .null))
        (sqlite3_value_blob (argv.getD 1 .null)) 0 = ((0 : ℚ), (0 : ℚ), (0 : ℚ))
      from cosine_basic_zero _ _]
    simp

/-- Witness for C10: both cosine entry points at a concrete validated
argument vector of empty blobs (element count 0) return the double 0.0. -/
theorem cosine_entry_zero_norm_witness :
    ndvss_cosine_similarity_f witnessSqrt cosine_similarity_f_basic
        witnessArgvEmpty = NdvssResult.value 0 ∧
    ndvss_cosine_similarity_d witnessSqrt cosine_similarity_d_basic
        witnessArgvEmpty = NdvssResult.value 0 := by
  have h := cosine_entry_zero_norm_policy witnessSqrt witnessSqrt
    cosine_similarity_f_basic cosine_similarity_d_basic
    witnessArgvEmpty (by decide)
  exact ⟨h.2.2.1 (by decide), h.2.2.2 (by decide)⟩

end Ndvss
